import Mathlib

/-!
Verification of the context-aware translation pipeline of the
`ai-translator-discord` repository.

The development shallowly embeds the two modules the claims are about:

* `translator.py` — language-instruction detection, AI context filtering,
  the MiMo completion client, the structured-response parser and the
  `translate_with_context` orchestrator;
* `database.py` — the SQLite message store's `get_message` and
  `get_relevant_context` queries.

External effects are made explicit:

* the HTTP layer (`httpx`) is modelled by an oracle
  `oracle : String → HttpOutcome` mapping each prompt to the outcome of the
  single POST request issued for it (timeout, transport error, or a response
  with a status code, a body text and the result of `response.json()`);
* Python's stdlib `json.loads` is modelled by a parameter
  `jsonLoads : String → Except String JValue`; every theorem quantifies over
  its behaviour, so the results hold for any decoder, the real one included;
* raised Python exceptions are modelled by `Except PyError`; each
  `try/except` of the source becomes an explicit `match`.

Python strings are modelled by `String` (code-point sequences, which matches
Python's `str` indexing and `len`).  `str.strip()` is modelled by `pyStrip`
over the ASCII whitespace characters, the only ones these code paths meet.
-/

/-- ASCII whitespace, the fragment of Python's `str.isspace` / regex `\s`
exercised by the code under verification. -/
def isPySpace (c : Char) : Bool :=
  c = ' ' || c = '\t' || c = '\n' || c = '\x0d' || c = '\x0b' || c = '\x0c'

/-- Python `str.strip()`: remove leading and trailing whitespace. -/
def pyStrip (s : String) : String :=
  String.mk (((s.data.dropWhile isPySpace).reverse.dropWhile isPySpace).reverse)

/-- Byte-lexicographic comparison on UTF-8 text, i.e. SQLite's BINARY
collation for `TEXT` columns; on code points this is plain lexicographic
order, which UTF-8 preserves. -/
def lexLe : List Char → List Char → Bool
  | [], _ => true
  | _ :: _, [] => false
  | a :: as, b :: bs => if a < b then true else if b < a then false else lexLe as bs

/-- SQLite `a <= b` on two TEXT timestamps. -/
def tsLe (a b : String) : Bool :=
  lexLe a.data b.data

/-- Insert into a list sorted by `le` (used to model sorting). -/
def insBy (le : α → α → Bool) (x : α) : List α → List α
  | [] => [x]
  | y :: ys => if le x y then x :: y :: ys else y :: insBy le x ys

/-- Insertion sort by `le`; models `ORDER BY` of SQL and `list.sort` of
Python (the inputs it is applied to below never hold equal keys, so
stability differences are unobservable). -/
def isortBy (le : α → α → Bool) : List α → List α
  | [] => []
  | x :: xs => insBy le x (isortBy le xs)

theorem mem_insBy (le : α → α → Bool) (x : α) (l : List α) (a : α) :
    a ∈ insBy le x l ↔ a = x ∨ a ∈ l := by
  induction l with
  | nil => simp [insBy]
  | cons y ys ih =>
    simp only [insBy]
    split
    · simp
    · simp only [List.mem_cons, ih]
      tauto

theorem mem_isortBy (le : α → α → Bool) (l : List α) (a : α) :
    a ∈ isortBy le l ↔ a ∈ l := by
  induction l with
  | nil => simp [isortBy]
  | cons x xs ih => simp [isortBy, mem_insBy, ih]

theorem length_insBy (le : α → α → Bool) (x : α) (l : List α) :
    (insBy le x l).length = l.length + 1 := by
  induction l with
  | nil => simp [insBy]
  | cons y ys ih =>
    simp only [insBy]
    split <;> simp [ih]

theorem length_isortBy (le : α → α → Bool) (l : List α) :
    (isortBy le l).length = l.length := by
  induction l with
  | nil => simp [isortBy]
  | cons x xs ih => simp [isortBy, length_insBy, ih]

/-- Index of the first occurrence of `needle` in `hay` (Python `str.find`,
restricted to the non-empty needles the code uses), as a code-point offset. -/
def findSubstr (needle : List Char) : List Char → Option Nat
  | [] => if needle.isPrefixOf [] then some 0 else none
  | c :: rest =>
    if needle.isPrefixOf (c :: rest) then some 0
    else (findSubstr needle rest).map (· + 1)

theorem findSubstr_bound (needle hay : List Char) (i : Nat) :
    findSubstr needle hay = some i → i + needle.length ≤ hay.length := by
  induction hay generalizing i with
  | nil =>
    intro h
    simp only [findSubstr] at h
    split at h
    · rename_i hp
      cases needle with
      | nil => cases h; simp
      | cons c cs => simp [List.isPrefixOf] at hp
    · cases h
  | cons c rest ih =>
    intro h
    simp only [findSubstr] at h
    split at h
    · rename_i hp
      cases h
      have := List.IsPrefix.length_le (List.isPrefixOf_iff_prefix.mp hp)
      simpa using this
    · cases hfind : findSubstr needle rest with
      | none => rw [hfind] at h; cases h
      | some j =>
        rw [hfind] at h
        cases h
        have := ih j hfind
        simp only [List.length_cons]
        omega

/-!
## Python values and exceptions

`JValue` is the image of `json.loads` / `response.json()`: the JSON data
model as Python builds it.  A non-integral number only ever reveals two
facts to the code under verification — it is not an `int` instance, and its
truthiness — so `float` carries just its zero-ness.  Object fields carry
distinct keys (Python `dict` semantics after decoding).
-/

inductive JValue where
  | null
  | bool (b : Bool)
  | int (n : Int)
  | float (isZero : Bool)
  | str (s : String)
  | arr (elems : List JValue)
  | obj (fields : List (String × JValue))

/-- The Python exceptions these code paths can raise.  `translationError`
is the repository's own typed `TranslationError`; the rest are builtin
exception classes, carrying the text `str(e)` would show. -/
inductive PyError where
  | translationError (msg : String)
  | keyError (key : String)
  | typeError (msg : String)
  | indexError (msg : String)
deriving DecidableEq, Repr

/-- Python `str(e)` of an exception (`KeyError` reprs its key). -/
def PyError.text : PyError → String
  | .translationError m => m
  | .keyError k => "\x27" ++ k ++ "\x27"
  | .typeError m => m
  | .indexError m => m

/-- Python truthiness of a decoded JSON value. -/
def JValue.truthy : JValue → Bool
  | .null => false
  | .bool b => b
  | .int n => n != 0
  | .float isZero => !isZero
  | .str s => s ≠ ""
  | .arr elems => !elems.isEmpty
  | .obj fields => !fields.isEmpty

/-- Python type name of a decoded JSON value (as in error messages). -/
def JValue.typeName : JValue → String
  | .null => "NoneType"
  | .bool _ => "bool"
  | .int _ => "int"
  | .float _ => "float"
  | .str _ => "str"
  | .arr _ => "list"
  | .obj _ => "dict"

/-- Lookup in a decoded JSON object. -/
def objLookup (fields : List (String × JValue)) (k : String) : Option JValue :=
  (fields.find? (fun p => p.1 = k)).map (·.2)

/-- Python `v[k]` for a string key `k`. -/
def pyGetStr (v : JValue) (k : String) : Except PyError JValue :=
  match v with
  | .obj fields =>
    match objLookup fields k with
    | some w => .ok w
    | none => .error (.keyError k)
  | .arr _ => .error (.typeError "list indices must be integers or slices, not str")
  | .str _ => .error (.typeError "string indices must be integers")
  | _ => .error (.typeError ("\x27" ++ v.typeName ++ "\x27 object is not subscriptable"))

/-- Python `v[0]`. -/
def pyGetZero (v : JValue) : Except PyError JValue :=
  match v with
  | .arr (x :: _) => .ok x
  | .arr [] => .error (.indexError "list index out of range")
  | .obj _ => .error (.keyError "0")
  | .str s =>
    match s.data with
    | c :: _ => .ok (.str (String.mk [c]))
    | [] => .error (.indexError "string index out of range")
  | _ => .error (.typeError ("\x27" ++ v.typeName ++ "\x27 object is not subscriptable"))

/-- Python `"choices" in v` (membership test: key lookup on a dict, element
equality on a list, substring test on a str, `TypeError` otherwise). -/
def pyContainsChoices (v : JValue) : Except PyError Bool :=
  match v with
  | .obj fields => .ok (fields.any (fun p => p.1 = "choices"))
  | .arr elems =>
    .ok (elems.any (fun e => match e with | .str s => s = "choices" | _ => false))
  | .str s => .ok (findSubstr "choices".data s.data).isSome
  | _ => .error (.typeError ("argument of type \x27" ++ v.typeName ++ "\x27 is not iterable"))

/-!
## The completion client (`call_mimo_api`, translator.py lines 240-303)

The network is an oracle: an `HttpOutcome` is what one
`httpx.AsyncClient.post` call produced — a timeout, a transport error, or a
response carrying its status code, its body text and the result of
`response.json()` (a decode failure or a decoded value).
-/

inductive HttpOutcome where
  | timeout
  | requestError (msg : String)
  | response (status : Nat) (text : String) (json : Except String JValue)

/-- `return data["choices"][0]["message"]["content"]` guarded by
`if "choices" not in data or not data["choices"]`. -/
def extract_choices_content (data : JValue) : Except PyError JValue :=
  match pyContainsChoices data with
  | .error e => .error e
  | .ok hasKey =>
    if !hasKey then .error (.translationError "Invalid API response: no choices found")
    else
      match pyGetStr data "choices" with
      | .error e => .error e
      | .ok choices =>
        if !choices.truthy then
          .error (.translationError "Invalid API response: no choices found")
        else
          match pyGetZero choices with
          | .error e => .error e
          | .ok first =>
            match pyGetStr first "message" with
            | .error e => .error e
            | .ok msg => pyGetStr msg "content"

/-- `call_mimo_api` (translator.py 240-303): raises `TranslationError` when
the API key is unset, on timeout, on transport error, on a non-200 status,
on a JSON decode failure and on a missing/falsy `choices`; any exception
raised while digging out `data["choices"][0]["message"]["content"]`
(`KeyError`, `TypeError`) is not caught and propagates as itself. -/
def call_mimo_api (apiKey : Option String) (outcome : HttpOutcome) :
    Except PyError JValue :=
  match apiKey with
  | none => .error (.translationError "MIMO_API_KEY environment variable is not set")
  | some _ =>
    match outcome with
    | .timeout => .error (.translationError "API request timed out")
    | .requestError e => .error (.translationError ("API request failed: " ++ e))
    | .response status text json =>
      if status ≠ 200 then
        .error (.translationError ("API returned status " ++ toString status ++ ": " ++ text))
      else
        match json with
        | .error _ => .error (.translationError "Invalid JSON response from API")
        | .ok data => extract_choices_content data

/-!
## Language-instruction detection (translator.py lines 24-110)

The six `LANGUAGE_PATTERNS` all have the shape
`^<literal><optional char>?(\w+)` (the English ones have no optional char),
matched case-insensitively with a greedy, backtracking optional and a
greedy `\w+` capture.  `isWordChar` models Python's `\w` on the character
classes these patterns can meet: ASCII alphanumerics, underscore, and CJK
ideographs.
-/

structure CtxMsg where
  user_name : String
  content : String
deriving DecidableEq, Repr

def isWordChar (c : Char) : Bool :=
  c.isAlphanum || c = '_' || (0x4E00 ≤ c.toNat && c.toNat ≤ 0x9FFF)

/-- Match `(\w+)` (greedy, at least one char): capture and rest. -/
def matchWordPlus (cs : List Char) : Option (List Char × List Char) :=
  match cs.takeWhile isWordChar with
  | [] => none
  | w => some (w, cs.dropWhile isWordChar)

/-- Match `c?(\w+)`: the greedy optional consumes `c` when present, and
backtracks to the empty match when no word char follows it. -/
def matchOptThenWord (c : Char) (cs : List Char) : Option (List Char × List Char) :=
  match cs with
  | [] => none
  | x :: rest =>
    if x = c then
      match matchWordPlus rest with
      | some r => some r
      | none => matchWordPlus cs
    else matchWordPlus cs

/-- Case-insensitive literal prefix (re.IGNORECASE). -/
def stripPrefixCI : List Char → List Char → Option (List Char)
  | [], cs => some cs
  | _ :: _, [] => none
  | p :: ps, c :: cs => if c.toLower = p.toLower then stripPrefixCI ps cs else none

/-- One entry of `LANGUAGE_PATTERNS`: a literal prefix, an optional single
char, then the `(\w+)` capture. -/
structure LangPattern where
  lit : String
  opt : Option Char

/-- `re.match` of one pattern: the captured language name and the rest of
the content after `match.end()`. -/
def matchLangPattern (p : LangPattern) (cs : List Char) : Option (List Char × List Char) :=
  match stripPrefixCI p.lit.data cs with
  | none => none
  | some rest =>
    match p.opt with
    | some c => matchOptThenWord c rest
    | none => matchWordPlus rest

def LANGUAGE_PATTERNS : List LangPattern :=
  [⟨"翻译", some '为'⟩, ⟨"翻译", some '成'⟩, ⟨"译", some '为'⟩, ⟨"译", some '成'⟩,
   ⟨"translate to ", none⟩, ⟨"translate into ", none⟩]

/-- Patterns are tried in declared order; the first that matches wins. -/
def tryPatterns : List LangPattern → List Char → Option (List Char × List Char)
  | [], _ => none
  | p :: ps, cs =>
    match matchLangPattern p cs with
    | some r => some r
    | none => tryPatterns ps cs

def LANGUAGE_MAP : List (String × String) :=
  [("中文", "zh"), ("简体中文", "zh"), ("繁体中文", "zh-tw"), ("英文", "en"),
   ("英语", "en"), ("日文", "ja"), ("日语", "ja"), ("韩文", "ko"), ("韩语", "ko"),
   ("法文", "fr"), ("法语", "fr"), ("德文", "de"), ("德语", "de"),
   ("西班牙文", "es"), ("西班牙语", "es"), ("俄文", "ru"), ("俄语", "ru"),
   ("意大利文", "it"), ("意大利语", "it"), ("葡萄牙文", "pt"), ("葡萄牙语", "pt"),
   ("阿拉伯文", "ar"), ("阿拉伯语", "ar"),
   ("chinese", "zh"), ("simplified chinese", "zh"), ("traditional chinese", "zh-tw"),
   ("english", "en"), ("japanese", "ja"), ("korean", "ko"), ("french", "fr"),
   ("german", "de"), ("spanish", "es"), ("russian", "ru"), ("italian", "it"),
   ("portuguese", "pt"), ("arabic", "ar")]

def lookupLang (name : String) : Option String :=
  ((LANGUAGE_MAP.find? (fun p => p.1 = name)).map (·.2))

/-- `re.sub(r"^[：:]\s*", "", s)`: one leading (full-width) colon and the
whitespace after it. -/
def stripLeadColon (s : String) : String :=
  match s.data with
  | c :: rest => if c = ':' || c = '：' then String.mk (rest.dropWhile isPySpace) else s
  | [] => s

/-- `detect_language_instruction` (translator.py 84-110). -/
def detect_language_instruction (content : String) : String × Option String :=
  let c := pyStrip content
  match tryPatterns LANGUAGE_PATTERNS c.data with
  | some (lang, rest) =>
    let langName := (pyStrip (String.mk lang)).toLower
    let cleaned := stripLeadColon (pyStrip (String.mk rest))
    (cleaned, lookupLang langName)
  | none => (c, none)

/-!
## Prompt builders (translator.py lines 113-237)
-/

def filterPromptLine (i : Nat) (c : CtxMsg) : String :=
  "[" ++ toString (i + 1) ++ "] " ++ c.user_name ++ ": " ++ c.content

/-- `build_context_filter_prompt` (translator.py 113-154). -/
def build_context_filter_prompt (target_content : String) (context_list : List CtxMsg) : String :=
  let context_text := String.intercalate "\n"
    (((List.range context_list.length).zip context_list).map (fun p => filterPromptLine p.1 p.2))
  "You are a context filtering assistant for a translation system.\n\nYour task is to analyze a list of conversation messages and identify which ones are semantically relevant to the target message that needs translation.\n\nTarget message to translate:\n\"" ++ target_content ++ "\"\n\nConversation context (most recent first):\n" ++ context_text ++ "\n\nInstructions:\n1. Analyze the semantic relationship between the target message and each context message\n2. Identify messages that share the same topic, refer to the same subject, or provide necessary context for understanding the target message\n3. Return ONLY a JSON array of indices (1-based) of the relevant messages\n4. If no messages are relevant, return an empty array []\n5. Be selective - only include messages that truly add context value\n\nResponse format (JSON only):\n[1, 3, 5]  // Example: messages 1, 3, and 5 are relevant\n\nYour response:"

/-- Python truthiness of an optional string (`if thread_id:`,
`if target_language:`): `None` and the empty string are falsy. -/
def optTruthy : Option String → Bool
  | none => false
  | some s => s != ""

def translationLangNames : List (String × String) :=
  [("zh", "Chinese (Simplified)"), ("zh-tw", "Chinese (Traditional)"), ("en", "English"),
   ("ja", "Japanese"), ("ko", "Korean"), ("fr", "French"), ("de", "German"),
   ("es", "Spanish"), ("ru", "Russian"), ("it", "Italian"), ("pt", "Portuguese"),
   ("ar", "Arabic")]

/-- `build_translation_prompt` (translator.py 157-237). -/
def build_translation_prompt (message_content : String) (filtered_context : List CtxMsg)
    (target_language : Option String) : String :=
  let context_section :=
    if filtered_context.isEmpty then ""
    else "\nRelevant conversation context:\n" ++
      String.intercalate "\n" (filtered_context.map (fun c => "- " ++ c.user_name ++ ": " ++ c.content)) ++ "\n"
  let lang_instruction :=
    if optTruthy target_language then
      let tl := target_language.getD ""
      let name := (((translationLangNames.find? (fun p => p.1 = tl)).map (·.2)).getD tl)
      "Translate the following message into " ++ name ++ "."
    else
      "Detect the source language and translate into English (or keep as English if already in English)."
  "You are an expert translator with deep cultural and linguistic knowledge.\n\n" ++ lang_instruction ++ "\n\nMessage to translate:\n\"" ++ message_content ++ "\"\n" ++ context_section ++ "\nProvide an enhanced translation with the following sections:\n\n[Translation]\nProvide the direct translation here. Maintain the original formatting (line breaks, emojis, etc.).\n\n[Context/Term Explanation]\nIf the message contains:\n- Cultural references\n- Idioms or slang\n- Technical terms\n- Names or proper nouns\n- References to previous conversation topics\nExplain them briefly here. If nothing needs explanation, write \"None\".\n\n[Tone Notes]\nAnalyze and describe:\n- The overall tone (formal, casual, humorous, serious, sarcastic, etc.)\n- Any emotional subtext\n- Register (polite, friendly, professional, etc.)\n- Any nuances that might be lost in translation\n\nFormat your response exactly with these section headers in brackets."

/-!
## AI context filtering (translator.py lines 306-369)
-/

/-- A character of the class `[\d,\s]` in the array-extraction regex. -/
def isArrChar (c : Char) : Bool :=
  c.isDigit || c = ',' || isPySpace c

/-- `re.search(r"\[[\d,\s]*\]", s)`: the leftmost substring consisting of a
bracket, a run of digits/commas/whitespace, and a closing bracket.  The
character class excludes both brackets, so the regex engine finds a match
at a given `[` exactly when the maximal class run after it is followed by
`]`. -/
def findArrayMatch : List Char → Option (List Char)
  | [] => none
  | c :: rest =>
    if c = '[' then
      match rest.dropWhile isArrChar with
      | ']' :: _ => some ('[' :: (rest.takeWhile isArrChar ++ [']']))
      | _ => findArrayMatch rest
    else findArrayMatch rest

/-- `String.startsWith` over code points. -/
def strStartsWith (s pre : String) : Bool :=
  pre.data.isPrefixOf s.data

/-- `String.endsWith` over code points. -/
def strEndsWith (s suf : String) : Bool :=
  suf.data.reverse.isPrefixOf s.data.reverse

/-- The two `re.sub` fence-stripping steps, applied only when the stripped
response starts with a code fence. -/
def stripFences (s : String) : String :=
  let rest := String.mk (s.data.drop 3)
  let rest := if strStartsWith rest "json" then String.mk (rest.data.drop 4) else rest
  let s1 := String.mk (rest.data.dropWhile isPySpace)
  if strEndsWith s1 "```" then
    String.mk ((s1.data.reverse.drop 3).dropWhile isPySpace).reverse
  else s1

/-- The response clean-up of `filter_context_with_ai` before `json.loads`:
strip, remove markdown code fences, extract the first JSON-array-looking
substring. -/
def cleanResponse (s : String) : String :=
  let s := pyStrip s
  let s := if strStartsWith s "```" then stripFences s else s
  match findArrayMatch s.data with
  | some m => String.mk m
  | none => s

/-- Python `isinstance(v, int)` view of a decoded JSON value: `int`s and
`bool`s (a subclass of `int`, `True = 1`, `False = 0`); everything else is
skipped by the index-mapping loop. -/
def intOfJValue : JValue → Option Int
  | .int n => some n
  | .bool b => some (if b then 1 else 0)
  | _ => none

/-- The index-mapping loop: keep `int` entries with `1 <= idx <= len`, map
each back to `context_list[idx - 1]`, preserving the model-given order and
multiplicity. -/
def selectByIndices (context_list : List CtxMsg) (elems : List JValue) : List CtxMsg :=
  elems.filterMap (fun v =>
    match intOfJValue v with
    | some n =>
      if 1 ≤ n ∧ n ≤ (context_list.length : Int) then context_list.get? (n - 1).toNat
      else none
    | none => none)

/-- The tail of the `try` body after `json.loads`: the non-list check, the
index mapping and the empty-subset fallback, with the `except` clause for a
decode failure. -/
def applyDecoded (context_list : List CtxMsg) (decoded : Except String JValue) : List CtxMsg :=
  match decoded with
  | .error _ => context_list
  | .ok (.arr elems) =>
    if (selectByIndices context_list elems).isEmpty then context_list
    else selectByIndices context_list elems
  | .ok _ => context_list

/-- The `try` body applied to the completion call's outcome: a raised
exception and a non-`str` reply (whose `.strip()` raises
`AttributeError`) are caught and yield the original window; a `str` reply
is cleaned and decoded. -/
def applyFilterReply (jsonLoads : String → Except String JValue)
    (context_list : List CtxMsg) (reply : Except PyError JValue) : List CtxMsg :=
  match reply with
  | .error _ => context_list
  | .ok (.str response) => applyDecoded context_list (jsonLoads (cleanResponse response))
  | .ok _ => context_list

/-- `filter_context_with_ai` (translator.py 306-369).  The `try` body is
explicit: the completion call, the `.strip()` on a non-`str` reply, the
`json.loads` failure, the non-list check and the empty-subset fallback each
return the original window, matching the `except` clauses and the explicit
fallbacks of the source. -/
def filter_context_with_ai (jsonLoads : String → Except String JValue)
    (apiKey : Option String) (oracle : String → HttpOutcome)
    (target_content : String) (context_list : List CtxMsg) : List CtxMsg :=
  if context_list.isEmpty then []
  else if context_list.length ≤ 2 then context_list
  else
    applyFilterReply jsonLoads context_list
      (call_mimo_api apiKey (oracle (build_context_filter_prompt target_content context_list)))

/-!
## Structured-response parsing (translator.py lines 445-497)
-/

inductive SectionName where
  | translation
  | context_explanation
  | tone_notes
deriving DecidableEq, Repr

def translationMarkers : List String :=
  ["[Translation]", "【Translation】", "Translation:"]

def contextMarkers : List String :=
  ["[Context/Term Explanation]", "【Context/Term Explanation】",
   "Context/Term Explanation:", "[Context]", "【Context】"]

def toneMarkers : List String :=
  ["[Tone Notes]", "【Tone Notes】", "Tone Notes:", "[Tone]", "【Tone】"]

/-- The inner marker loop: position and length of the first accepted
spelling that occurs in the response (`break` on the first hit). -/
def foundMarker (resp : List Char) : List String → Option (Nat × Nat)
  | [] => none
  | m :: ms =>
    match findSubstr m.data resp with
    | some p => some (p, m.data.length)
    | none => foundMarker resp ms

/-- `section_positions` before sorting, in the table's insertion order. -/
def buildPositions (resp : List Char) : List (Nat × SectionName × Nat) :=
  (match foundMarker resp translationMarkers with
   | some (p, l) => [(p, SectionName.translation, l)]
   | none => []) ++
  (match foundMarker resp contextMarkers with
   | some (p, l) => [(p, SectionName.context_explanation, l)]
   | none => []) ++
  (match foundMarker resp toneMarkers with
   | some (p, l) => [(p, SectionName.tone_notes, l)]
   | none => [])

structure TransParsed where
  translation : String
  context_explanation : String
  tone_notes : String
deriving DecidableEq, Repr

def setField (r : TransParsed) : SectionName → String → TransParsed
  | .translation, s => { r with translation := s }
  | .context_explanation, s => { r with context_explanation := s }
  | .tone_notes, s => { r with tone_notes := s }

/-- One section's content: the slice between two offsets, stripped, with a
leading colon removed. -/
def sectionContent (resp : List Char) (start fin : Nat) : String :=
  stripLeadColon (pyStrip (String.mk ((resp.drop start).take (fin - start))))

/-- The extraction loop over the position-sorted sections: each section's
slice runs to the start of the next section, or to the end of the text. -/
def extractLoop (resp : List Char) : List (Nat × SectionName × Nat) → TransParsed → TransParsed
  | [], r => r
  | (pos, name, mlen) :: rest, r =>
    let fin := match rest with
      | (p2, _, _) :: _ => p2
      | [] => resp.length
    extractLoop resp rest (setField r name (sectionContent resp (pos + mlen) fin))

/-- `parse_translation_response` (translator.py 445-497). -/
def parse_translation_response (response : String) : TransParsed :=
  let resp := response.data
  let sorted := isortBy (fun a b => decide (a.1 ≤ b.1)) (buildPositions resp)
  let r := extractLoop resp sorted ⟨"", "", ""⟩
  if r.translation = "" then { r with translation := pyStrip response } else r

/-!
## The orchestrator (translator.py lines 372-442)
-/

structure TranslationResult where
  original : String
  cleaned : String
  target_language : Option String
  translation : String
  context_explanation : String
  tone_notes : String
  relevant_context : List CtxMsg
  error : Option String
deriving DecidableEq, Repr

/-- The error string the orchestrator stores: `str(e)` for the typed
`TranslationError`, the `"Unexpected error: "`-prefixed text for any other
exception. -/
def resultErrMsg (e : PyError) : String :=
  match e with
  | .translationError m => m
  | e => "Unexpected error: " ++ e.text

/-- The prompt the orchestrator sends: built from the cleaned content, the
filtered context and the detected language. -/
def translationPrompt (jsonLoads : String → Except String JValue)
    (apiKey : Option String) (oracle : String → HttpOutcome)
    (message_content : String) (context_list : List CtxMsg) : String :=
  build_translation_prompt (detect_language_instruction message_content).1
    (filter_context_with_ai jsonLoads apiKey oracle message_content context_list)
    (detect_language_instruction message_content).2

/-- The result record after steps 1-2 (context filtered, instruction
detected), before the completion call: the state of the mutated `result`
dict at translator.py line 422. -/
def baseResult (jsonLoads : String → Except String JValue)
    (apiKey : Option String) (oracle : String → HttpOutcome)
    (message_content : String) (context_list : List CtxMsg) : TranslationResult :=
  { original := message_content
    cleaned := (detect_language_instruction message_content).1
    target_language := (detect_language_instruction message_content).2
    translation := ""
    context_explanation := ""
    tone_notes := ""
    relevant_context := filter_context_with_ai jsonLoads apiKey oracle message_content context_list
    error := none }

/-- `translate_with_context` (translator.py 372-442).  A raised
`TranslationError` and any other exception (here: the `AttributeError`
from calling `.find` inside `parse_translation_response` on a non-`str`
reply) land in the `error` field; on success the three parsed fields are
copied into the record. -/
def translate_with_context (jsonLoads : String → Except String JValue)
    (apiKey : Option String) (oracle : String → HttpOutcome)
    (message_content : String) (context_list : List CtxMsg) : TranslationResult :=
  let base := baseResult jsonLoads apiKey oracle message_content context_list
  match call_mimo_api apiKey (oracle (translationPrompt jsonLoads apiKey oracle message_content context_list)) with
  | .error e => { base with error := some (resultErrMsg e) }
  | .ok (.str response) =>
    let parsed := parse_translation_response response
    { base with
        translation := parsed.translation
        context_explanation := parsed.context_explanation
        tone_notes := parsed.tone_notes }
  | .ok v =>
    { base with
        error := some ("Unexpected error: \x27" ++ v.typeName ++ "\x27 object has no attribute \x27find\x27") }

/-!
## The message store (database.py)

The `messages` relation is a list of rows; `msg_id` is the primary key, so
`SELECT ... WHERE msg_id = ?` with `fetchone` is a `find?`.  The scoped
context query is its `WHERE` filter, an `ORDER BY timestamp DESC` (BINARY
collation on TEXT), a `LIMIT`, and the final Python `reversed`.  SQL leaves
the relative order of equal timestamps unspecified; the model picks the
insertion-sort order, which the claims (membership, length, scoping) never
observe.
-/

structure Message where
  msg_id : String
  user_id : String
  user_name : String
  content : String
  timestamp : String
  channel_id : String
  thread_id : Option String
  guild_id : Option String
deriving DecidableEq, Repr

/-- `MessageDatabase.get_message` (database.py 109-128). -/
def get_message (db : List Message) (msg_id : String) : Option Message :=
  db.find? (fun m => m.msg_id = msg_id)

/-- The thread-branch `WHERE` clause (database.py 163-173):
`thread_id = ? AND timestamp <= ? AND msg_id != ?`. -/
def threadQueryPred (tid target_time msg_id : String) (m : Message) : Bool :=
  decide (m.thread_id = some tid) && tsLe m.timestamp target_time && decide (m.msg_id ≠ msg_id)

/-- The channel-branch `WHERE` clause (database.py 177-188):
`channel_id = ? AND thread_id IS NULL AND timestamp <= ? AND msg_id != ?`. -/
def channelQueryPred (channel_id target_time msg_id : String) (m : Message) : Bool :=
  decide (m.channel_id = channel_id) && decide (m.thread_id = none) &&
    tsLe m.timestamp target_time && decide (m.msg_id ≠ msg_id)

/-- `MessageDatabase.get_relevant_context` (database.py 130-200).  The
branch choice is Python's `if thread_id:`, i.e. the truthiness of the
target's thread id — `None` and `""` both select the channel branch. -/
def get_relevant_context (db : List Message) (msg_id : String) (limit : Nat) : List Message :=
  match get_message db msg_id with
  | none => []
  | some target =>
    let rows :=
      if optTruthy target.thread_id then
        db.filter (threadQueryPred (target.thread_id.getD "") target.timestamp msg_id)
      else
        db.filter (channelQueryPred target.channel_id target.timestamp msg_id)
    ((isortBy (fun a b => tsLe b.timestamp a.timestamp) rows).take limit).reverse

/-- Every row of the window satisfies the branch's `WHERE` clause. -/
theorem get_relevant_context_mem (db : List Message) (msg_id : String) (limit : Nat)
    (target : Message) (h : get_message db msg_id = some target) (m : Message)
    (hm : m ∈ get_relevant_context db msg_id limit) :
    (optTruthy target.thread_id = true ∧
      threadQueryPred (target.thread_id.getD "") target.timestamp msg_id m = true) ∨
    (optTruthy target.thread_id = false ∧
      channelQueryPred target.channel_id target.timestamp msg_id m = true) := by
  unfold get_relevant_context at hm
  rw [h] at hm
  simp only [List.mem_reverse] at hm
  have hm2 := List.take_subset _ _ hm
  rw [mem_isortBy] at hm2
  by_cases ht : optTruthy target.thread_id
  · left
    rw [if_pos ht] at hm2
    exact ⟨ht, (List.mem_filter.mp hm2).2⟩
  · right
    rw [if_neg ht] at hm2
    exact ⟨by simpa using ht, (List.mem_filter.mp hm2).2⟩

/-- C5: for every stored target message and every requested limit, the
context window returned for that message never contains the target
message's own id, and its length never exceeds the requested limit. -/
theorem C5_window_excludes_target_and_respects_limit
    (db : List Message) (msg_id : String) (limit : Nat) :
    (∀ m ∈ get_relevant_context db msg_id limit, m.msg_id ≠ msg_id) ∧
    (get_relevant_context db msg_id limit).length ≤ limit := by
  constructor
  · intro m hm
    cases h : get_message db msg_id with
    | none =>
      unfold get_relevant_context at hm
      rw [h] at hm
      simp at hm
    | some target =>
      rcases get_relevant_context_mem db msg_id limit target h m hm with ⟨_, hp⟩ | ⟨_, hp⟩
      · simp only [threadQueryPred, Bool.and_eq_true, decide_eq_true_eq] at hp
        exact hp.2
      · simp only [channelQueryPred, Bool.and_eq_true, decide_eq_true_eq] at hp
        exact hp.2
  · unfold get_relevant_context
    cases h : get_message db msg_id with
    | none => simp
    | some target =>
      simp only [List.length_reverse]
      exact List.length_take_le limit _

def c5other : Message :=
  ⟨"a", "u1", "alice", "hi", "2024-01-01T00:00:00", "c", none, none⟩

def c5target : Message :=
  ⟨"t", "u2", "bob", "yo", "2024-01-02T00:00:00", "c", none, none⟩

def c5db : List Message := [c5other, c5target]

/-- Witness for C5 at a concrete two-row store. -/
theorem C5_witness :
    c5other ∈ get_relevant_context c5db "t" 10 ∧ c5other.msg_id ≠ "t" ∧
    (get_relevant_context c5db "t" 10).length ≤ 10 :=
  ⟨by decide, (C5_window_excludes_target_and_respects_limit c5db "t" 10).1 c5other (by decide),
    (C5_window_excludes_target_and_respects_limit c5db "t" 10).2⟩

def c6target : Message := ⟨"t", "u2", "bob", "yo", "2", "c", some "", none⟩

def c6other : Message := ⟨"a", "u1", "alice", "hi", "1", "c", none, none⟩

def c6db : List Message := [c6other, c6target]

/-- C6 counterexample: a stored target whose thread id is non-null (it is
the empty string) gets a channel-scoped window: the window holds a message
whose thread id is null, not the target's thread id. -/
theorem C6_counterexample :
    get_message c6db "t" = some c6target ∧
    c6target.thread_id = some "" ∧
    c6other ∈ get_relevant_context c6db "t" 10 ∧
    c6other.thread_id ≠ c6target.thread_id := by decide

/-- C6 amended: if the target's thread id is truthy (non-null and
non-empty) every window message carries that same thread id; if the
target's thread id is null or the empty string, every window message
carries the target's channel id and a null thread id. -/
theorem C6_amended_window_scoping
    (db : List Message) (msg_id : String) (limit : Nat) (target : Message)
    (h : get_message db msg_id = some target) :
    ∀ m ∈ get_relevant_context db msg_id limit,
      (optTruthy target.thread_id = true → m.thread_id = target.thread_id) ∧
      (optTruthy target.thread_id = false →
        m.channel_id = target.channel_id ∧ m.thread_id = none) := by
  intro m hm
  rcases get_relevant_context_mem db msg_id limit target h m hm with ⟨ht, hp⟩ | ⟨ht, hp⟩
  · constructor
    · intro
      simp only [threadQueryPred, Bool.and_eq_true, decide_eq_true_eq] at hp
      rw [hp.1.1]
      cases htid : target.thread_id with
      | none => rw [htid] at ht; simp [optTruthy] at ht
      | some s => simp [htid]
    · intro hf
      rw [ht] at hf
      cases hf
  · constructor
    · intro htr
      rw [ht] at htr
      cases htr
    · intro
      simp only [channelQueryPred, Bool.and_eq_true, decide_eq_true_eq] at hp
      exact ⟨hp.1.1.1, hp.1.1.2⟩

/-- Witness for the amended C6 at the concrete store of the
counterexample: the empty-string-thread target gets a channel-scoped,
null-thread window. -/
theorem C6_amended_witness :
    c6other ∈ get_relevant_context c6db "t" 10 ∧
    c6other.channel_id = c6target.channel_id ∧ c6other.thread_id = none :=
  ⟨by decide,
    (C6_amended_window_scoping c6db "t" 10 c6target (by decide) c6other (by decide)).2 (by decide)⟩

/-- C8 counterexample: `" hello"` matches none of the instruction patterns
(they are all anchored at the start of the text), yet the function returns
`"hello"`, not the content verbatim — the `.strip()` applies on every
path. -/
theorem C8_counterexample :
    tryPatterns LANGUAGE_PATTERNS (" hello" : String).data = none ∧
    tryPatterns LANGUAGE_PATTERNS (pyStrip " hello").data = none ∧
    detect_language_instruction " hello" = ("hello", none) ∧
    (" hello" : String) ≠ "hello" := by decide

/-- C8 amended: on an input whose stripped form matches none of the
leading-phrase patterns, the detector returns the whitespace-stripped
content together with a null language code (so the content is verbatim
exactly when it carries no surrounding whitespace). -/
theorem C8_amended_no_match_returns_stripped (content : String)
    (h : tryPatterns LANGUAGE_PATTERNS (pyStrip content).data = none) :
    detect_language_instruction content = (pyStrip content, none) := by
  simp only [detect_language_instruction]
  rw [h]

/-- Witness for the amended C8 at `"hello world"`. -/
theorem C8_amended_witness :
    tryPatterns LANGUAGE_PATTERNS (pyStrip "hello world").data = none ∧
    detect_language_instruction "hello world" = ("hello world", none) :=
  ⟨by decide, (C8_amended_no_match_returns_stripped "hello world" (by decide)).trans (by decide)⟩

/-- C9: a window of at most 2 messages is returned unchanged, whatever the
decoder, the API key and the network behave like — in particular no
completion request is consulted, since the result is the same for every
possible client behaviour. -/
theorem C9_filter_short_circuit
    (jsonLoads : String → Except String JValue) (apiKey : Option String)
    (oracle : String → HttpOutcome) (target_content : String)
    (context_list : List CtxMsg) (hlen : context_list.length ≤ 2) :
    filter_context_with_ai jsonLoads apiKey oracle target_content context_list = context_list := by
  unfold filter_context_with_ai
  cases context_list with
  | nil => rfl
  | cons c cs =>
    rw [if_neg (by simp), if_pos hlen]

def c9ctx : List CtxMsg := [⟨"alice", "hi"⟩, ⟨"bob", "yo"⟩]

/-- Witness for C9: a concrete 2-message window under an always-failing
client and an always-succeeding client, identical results. -/
theorem C9_witness :
    c9ctx.length ≤ 2 ∧
    filter_context_with_ai (fun _ => .error "boom") none (fun _ => .timeout) "t" c9ctx = c9ctx ∧
    filter_context_with_ai (fun _ => .ok (.arr [.int 1])) (some "k")
      (fun _ => .response 200 "" (.ok (.str "[1]"))) "t" c9ctx = c9ctx :=
  ⟨by decide,
    C9_filter_short_circuit (fun _ => .error "boom") none (fun _ => .timeout) "t" c9ctx (by decide),
    C9_filter_short_circuit (fun _ => .ok (.arr [.int 1])) (some "k")
      (fun _ => .response 200 "" (.ok (.str "[1]"))) "t" c9ctx (by decide)⟩

theorem mem_selectByIndices (context_list : List CtxMsg) (elems : List JValue) (m : CtxMsg)
    (hm : m ∈ selectByIndices context_list elems) : m ∈ context_list := by
  simp only [selectByIndices, List.mem_filterMap] at hm
  obtain ⟨a, _, ha⟩ := hm
  split at ha
  · split at ha
    · exact List.get?_mem ha
    · cases ha
  · cases ha

theorem mem_applyDecoded (context_list : List CtxMsg) (decoded : Except String JValue)
    (m : CtxMsg) (hm : m ∈ applyDecoded context_list decoded) : m ∈ context_list := by
  unfold applyDecoded at hm
  split at hm
  · exact hm
  · split at hm
    · exact hm
    · exact mem_selectByIndices context_list _ m hm
  · exact hm

theorem mem_applyFilterReply (jsonLoads : String → Except String JValue)
    (context_list : List CtxMsg) (reply : Except PyError JValue) (m : CtxMsg)
    (hm : m ∈ applyFilterReply jsonLoads context_list reply) : m ∈ context_list := by
  unfold applyFilterReply at hm
  split at hm
  · exact hm
  · exact mem_applyDecoded context_list _ m hm
  · exact hm

/-- C10: every message the filter returns is an element of the input
window, for every decoder, key, network behaviour and input. -/
theorem C10_filter_returns_only_input_messages
    (jsonLoads : String → Except String JValue) (apiKey : Option String)
    (oracle : String → HttpOutcome) (target_content : String)
    (context_list : List CtxMsg) (m : CtxMsg)
    (hm : m ∈ filter_context_with_ai jsonLoads apiKey oracle target_content context_list) :
    m ∈ context_list := by
  unfold filter_context_with_ai at hm
  split at hm
  · simp at hm
  · split at hm
    · exact hm
    · exact mem_applyFilterReply jsonLoads context_list _ m hm

def c10ctx : List CtxMsg := [⟨"alice", "one"⟩, ⟨"bob", "two"⟩, ⟨"carol", "three"⟩]

def c10oracle : String → HttpOutcome :=
  fun _ => .response 200 ""
    (.ok (.obj [("choices", .arr [.obj [("message", .obj [("content", .str "[2]")])]])]))

def c10jsonLoads : String → Except String JValue :=
  fun s => if s = "[2]" then .ok (.arr [.int 2]) else .error "Expecting value"

/-- Witness for C10 on the success path: the model keeps index 2 and the
returned message is the second input message. -/
theorem C10_witness :
    (⟨"bob", "two"⟩ : CtxMsg) ∈
      filter_context_with_ai c10jsonLoads (some "k") c10oracle "hello" c10ctx ∧
    (⟨"bob", "two"⟩ : CtxMsg) ∈ c10ctx :=
  ⟨by decide,
    C10_filter_returns_only_input_messages c10jsonLoads (some "k") c10oracle "hello" c10ctx
      ⟨"bob", "two"⟩ (by decide)⟩

/-- C2: on a window of more than 2 messages the filter fails open — a
raised completion error, a `json.loads` failure on the cleaned reply, a
decoded non-list value, and an index mapping that selects nothing all
yield the original, unfiltered window. -/
theorem C2_filter_fail_open
    (jsonLoads : String → Except String JValue) (apiKey : Option String)
    (oracle : String → HttpOutcome) (target_content : String)
    (context_list : List CtxMsg) (hlen : 2 < context_list.length) :
    (∀ e, call_mimo_api apiKey (oracle (build_context_filter_prompt target_content context_list)) =
        .error e →
      filter_context_with_ai jsonLoads apiKey oracle target_content context_list = context_list) ∧
    (∀ s, call_mimo_api apiKey (oracle (build_context_filter_prompt target_content context_list)) =
        .ok (.str s) →
      ((∀ e, jsonLoads (cleanResponse s) = .error e →
        filter_context_with_ai jsonLoads apiKey oracle target_content context_list = context_list) ∧
       (∀ v, jsonLoads (cleanResponse s) = .ok v → (∀ xs, v ≠ .arr xs) →
        filter_context_with_ai jsonLoads apiKey oracle target_content context_list = context_list) ∧
       (∀ xs, jsonLoads (cleanResponse s) = .ok (.arr xs) →
          selectByIndices context_list xs = [] →
        filter_context_with_ai jsonLoads apiKey oracle target_content context_list = context_list))) := by
  have hne : context_list.isEmpty = false := by
    cases context_list with
    | nil => simp at hlen
    | cons c cs => rfl
  have hgt : ¬ context_list.length ≤ 2 := by omega
  constructor
  · intro e he
    unfold filter_context_with_ai
    rw [hne, if_neg (by simp), if_neg hgt, he]
    rfl
  · intro s hs
    refine ⟨?_, ?_, ?_⟩
    · intro e he
      unfold filter_context_with_ai
      rw [hne, if_neg (by simp), if_neg hgt, hs]
      simp only [applyFilterReply]
      rw [he]
      rfl
    · intro v hv hnarr
      unfold filter_context_with_ai
      rw [hne, if_neg (by simp), if_neg hgt, hs]
      simp only [applyFilterReply]
      rw [hv]
      cases v with
      | arr xs => exact absurd rfl (hnarr xs)
      | null => rfl
      | bool b => rfl
      | int n => rfl
      | float z => rfl
      | str t => rfl
      | obj fs => rfl
    · intro xs hv hsel
      unfold filter_context_with_ai
      rw [hne, if_neg (by simp), if_neg hgt, hs]
      simp only [applyFilterReply]
      rw [hv]
      simp [applyDecoded, hsel]

def c2ctx : List CtxMsg := [⟨"alice", "one"⟩, ⟨"bob", "two"⟩, ⟨"carol", "three"⟩]

def c2oracle : String → HttpOutcome :=
  fun _ => .response 200 ""
    (.ok (.obj [("choices", .arr [.obj [("message", .obj [("content", .str "not json")])]])]))

/-- Witness for C2: a 3-message window, a successful completion whose reply
is not JSON, a decoder that fails on it — the window comes back unchanged. -/
theorem C2_witness :
    2 < c2ctx.length ∧
    filter_context_with_ai (fun _ => .error "Expecting value") (some "k") c2oracle "hello" c2ctx
      = c2ctx :=
  ⟨by decide,
    ((C2_filter_fail_open (fun _ => .error "Expecting value") (some "k") c2oracle "hello" c2ctx
        (by decide)).2 "not json" rfl).1 "Expecting value" rfl⟩

/-!
## Error-text machinery for the orchestrator claims

Every error the completion client can raise carries a non-empty text once
the orchestrator turns it into the `error` field.
-/

theorem strAppend_ne_empty (s t : String) (h : s ≠ "") : s ++ t ≠ "" := by
  intro hc
  have h2 := congrArg String.data hc
  rw [String.data_append] at h2
  exact h (String.ext (List.append_eq_nil.mp h2).1)

theorem pyGetStr_error_msg (v : JValue) (k : String) (e : PyError)
    (h : pyGetStr v k = .error e) : resultErrMsg e ≠ "" := by
  unfold pyGetStr at h
  split at h
  · split at h
    · cases h
    · injection h with h2
      subst h2
      exact strAppend_ne_empty _ _ (by decide)
  · injection h with h2
    subst h2
    exact strAppend_ne_empty _ _ (by decide)
  · injection h with h2
    subst h2
    exact strAppend_ne_empty _ _ (by decide)
  · injection h with h2
    subst h2
    exact strAppend_ne_empty _ _ (by decide)

theorem pyGetZero_error_msg (v : JValue) (e : PyError)
    (h : pyGetZero v = .error e) : resultErrMsg e ≠ "" := by
  unfold pyGetZero at h
  split at h
  · cases h
  · injection h with h2
    subst h2
    exact strAppend_ne_empty _ _ (by decide)
  · injection h with h2
    subst h2
    exact strAppend_ne_empty _ _ (by decide)
  · split at h
    · cases h
    · injection h with h2
      subst h2
      exact strAppend_ne_empty _ _ (by decide)
  · injection h with h2
    subst h2
    exact strAppend_ne_empty _ _ (by decide)

theorem pyContainsChoices_error_msg (v : JValue) (e : PyError)
    (h : pyContainsChoices v = .error e) : resultErrMsg e ≠ "" := by
  unfold pyContainsChoices at h
  split at h
  · cases h
  · cases h
  · cases h
  · injection h with h2
    subst h2
    exact strAppend_ne_empty _ _ (by decide)

theorem extract_error_msg (data : JValue) (e : PyError)
    (h : extract_choices_content data = .error e) : resultErrMsg e ≠ "" := by
  unfold extract_choices_content at h
  split at h
  · rename_i e2 heq
    injection h with h2
    subst h2
    exact pyContainsChoices_error_msg data _ heq
  · split at h
    · injection h with h2
      subst h2
      decide
    · split at h
      · rename_i e2 heq
        injection h with h2
        subst h2
        exact pyGetStr_error_msg data "choices" _ heq
      · rename_i choices heq
        split at h
        · injection h with h2
          subst h2
          decide
        · split at h
          · rename_i e2 heq2
            injection h with h2
            subst h2
            exact pyGetZero_error_msg choices _ heq2
          · rename_i first heq2
            split at h
            · rename_i e2 heq3
              injection h with h2
              subst h2
              exact pyGetStr_error_msg first "message" _ heq3
            · rename_i msg heq3
              exact pyGetStr_error_msg msg "content" e h

theorem call_error_msg (apiKey : Option String) (outcome : HttpOutcome) (e : PyError)
    (h : call_mimo_api apiKey outcome = .error e) : resultErrMsg e ≠ "" := by
  unfold call_mimo_api at h
  split at h
  · injection h with h2
    subst h2
    decide
  · split at h
    · injection h with h2
      subst h2
      decide
    · injection h with h2
      subst h2
      exact strAppend_ne_empty _ _ (by decide)
    · split at h
      · injection h with h2
        subst h2
        exact strAppend_ne_empty _ _ (strAppend_ne_empty _ _ (strAppend_ne_empty _ _ (by decide)))
      · split at h
        · injection h with h2
          subst h2
          decide
        · exact extract_error_msg _ e h

/-- C1: the orchestrator is a total function of its inputs and the network
behaviour (the embedding itself is the never-raises guarantee), and when
the completion client raises on every call, the returned record carries a
non-empty error text and an empty translation. -/
theorem C1_orchestrator_contains_total_failure
    (jsonLoads : String → Except String JValue) (apiKey : Option String)
    (oracle : String → HttpOutcome) (message_content : String) (context_list : List CtxMsg)
    (herr : ∀ p, ∃ e, call_mimo_api apiKey (oracle p) = .error e) :
    ∃ m, (translate_with_context jsonLoads apiKey oracle message_content context_list).error = some m ∧
      m ≠ "" ∧
      (translate_with_context jsonLoads apiKey oracle message_content context_list).translation = "" := by
  obtain ⟨e, he⟩ := herr (translationPrompt jsonLoads apiKey oracle message_content context_list)
  refine ⟨resultErrMsg e, ?_, call_error_msg _ _ _ he, ?_⟩
  · unfold translate_with_context
    rw [he]
  · unfold translate_with_context
    rw [he]
    rfl

/-- Witness for C1: with the API key unset every call raises the typed
configuration error, and the record shows it. -/
theorem C1_witness :
    ∃ m, (translate_with_context (fun _ => .error "x") none (fun _ => .timeout) "hi" []).error = some m ∧
      m ≠ "" ∧
      (translate_with_context (fun _ => .error "x") none (fun _ => .timeout) "hi" []).translation = "" :=
  C1_orchestrator_contains_total_failure (fun _ => .error "x") none (fun _ => .timeout) "hi" []
    (fun _ => ⟨.translationError "MIMO_API_KEY environment variable is not set", rfl⟩)

def c3oracle : String → HttpOutcome :=
  fun _ => .response 200 ""
    (.ok (.obj [("choices", .arr [.obj [("message", .obj [("content", .str "")])]])]))

/-- C3 counterexample: a successful completion whose reply text is empty
leaves the record with an empty translation AND a null error — neither
field is populated, refuting the exactly-one invariant. -/
theorem C3_counterexample :
    (translate_with_context (fun _ => .error "j") (some "k") c3oracle "hello" []).error = none ∧
    (translate_with_context (fun _ => .error "j") (some "k") c3oracle "hello" []).translation = "" :=
  ⟨rfl, rfl⟩

theorem parse_translation_nonempty (s : String) (h : pyStrip s ≠ "") :
    (parse_translation_response s).translation ≠ "" := by
  simp only [parse_translation_response]
  split
  · exact h
  · rename_i hne
    exact hne

/-- C3 amended: at most one of the translation field and the error field is
populated — a populated error forces an empty translation — and when the
completion succeeds with a reply whose stripped text is non-empty, exactly
one is populated (non-empty translation, null error).  Both fields are
empty exactly in the remaining success case, a whitespace-only reply. -/
theorem C3_amended_at_most_one_populated
    (jsonLoads : String → Except String JValue) (apiKey : Option String)
    (oracle : String → HttpOutcome) (message_content : String) (context_list : List CtxMsg) :
    ((translate_with_context jsonLoads apiKey oracle message_content context_list).error ≠ none →
      (translate_with_context jsonLoads apiKey oracle message_content context_list).translation = "") ∧
    (∀ s, call_mimo_api apiKey
        (oracle (translationPrompt jsonLoads apiKey oracle message_content context_list)) =
        .ok (.str s) →
      pyStrip s ≠ "" →
      (translate_with_context jsonLoads apiKey oracle message_content context_list).translation ≠ "" ∧
      (translate_with_context jsonLoads apiKey oracle message_content context_list).error = none) := by
  cases hc : call_mimo_api apiKey
      (oracle (translationPrompt jsonLoads apiKey oracle message_content context_list)) with
  | error e =>
    constructor
    · intro
      unfold translate_with_context
      rw [hc]
      rfl
    · intro s hs
      cases hs
  | ok v =>
    cases v with
    | str s0 =>
      constructor
      · intro hne
        exact absurd (by unfold translate_with_context; rw [hc]; rfl) hne
      · intro s hs hstrip
        injection hs with hv
        injection hv with hseq
        subst hseq
        constructor
        · unfold translate_with_context
          rw [hc]
          exact parse_translation_nonempty s0 hstrip
        · unfold translate_with_context
          rw [hc]
          rfl
    | null =>
      exact ⟨fun _ => by unfold translate_with_context; rw [hc]; rfl,
        fun s hs => by injection hs with hv; exact JValue.noConfusion hv⟩
    | bool b =>
      exact ⟨fun _ => by unfold translate_with_context; rw [hc]; rfl,
        fun s hs => by injection hs with hv; exact JValue.noConfusion hv⟩
    | int n =>
      exact ⟨fun _ => by unfold translate_with_context; rw [hc]; rfl,
        fun s hs => by injection hs with hv; exact JValue.noConfusion hv⟩
    | float z =>
      exact ⟨fun _ => by unfold translate_with_context; rw [hc]; rfl,
        fun s hs => by injection hs with hv; exact JValue.noConfusion hv⟩
    | arr xs =>
      exact ⟨fun _ => by unfold translate_with_context; rw [hc]; rfl,
        fun s hs => by injection hs with hv; exact JValue.noConfusion hv⟩
    | obj fs =>
      exact ⟨fun _ => by unfold translate_with_context; rw [hc]; rfl,
        fun s hs => by injection hs with hv; exact JValue.noConfusion hv⟩

def c3wOracle : String → HttpOutcome :=
  fun _ => .response 200 ""
    (.ok (.obj [("choices", .arr [.obj [("message", .obj [("content", .str "Bonjour")])]])]))

/-- Witness for the amended C3: a non-blank successful reply populates the
translation and leaves the error null. -/
theorem C3_amended_witness :
    (translate_with_context (fun _ => .error "j") (some "k") c3wOracle "hi" []).translation ≠ "" ∧
    (translate_with_context (fun _ => .error "j") (some "k") c3wOracle "hi" []).error = none :=
  (C3_amended_at_most_one_populated (fun _ => .error "j") (some "k") c3wOracle "hi" []).2
    "Bonjour" rfl (by decide)

theorem objLookup_some_any (fields : List (String × JValue)) (k : String) (c : JValue)
    (h : objLookup fields k = some c) : (fields.any (fun p => p.1 = k)) = true := by
  unfold objLookup at h
  rcases Option.map_eq_some'.mp h with ⟨p, hp, _⟩
  rw [List.any_eq_true]
  exact ⟨p, List.mem_of_find?_eq_some hp, by simpa using List.find?_some hp⟩

theorem objLookup_none_any (fields : List (String × JValue)) (k : String)
    (h : objLookup fields k = none) : (fields.any (fun p => p.1 = k)) = false := by
  unfold objLookup at h
  have h2 := Option.map_eq_none'.mp h
  rw [List.any_eq_false]
  intro x hx
  have h3 := List.find?_eq_none.mp h2 x hx
  simpa using h3

theorem extract_missing_choices (fields : List (String × JValue))
    (h : objLookup fields "choices" = none) :
    extract_choices_content (.obj fields) =
      .error (.translationError "Invalid API response: no choices found") := by
  have hany := objLookup_none_any fields "choices" h
  simp [extract_choices_content, pyContainsChoices, hany]

theorem extract_falsy_choices (fields : List (String × JValue)) (c : JValue)
    (h : objLookup fields "choices" = some c) (hf : c.truthy = false) :
    extract_choices_content (.obj fields) =
      .error (.translationError "Invalid API response: no choices found") := by
  have hany := objLookup_some_any fields "choices" c h
  simp [extract_choices_content, pyContainsChoices, pyGetStr, hany, h, hf]

theorem extract_wellformed (fields f2 f3 : List (String × JValue)) (rest : List JValue)
    (v : JValue)
    (h1 : objLookup fields "choices" = some (.arr (.obj f2 :: rest)))
    (h2 : objLookup f2 "message" = some (.obj f3))
    (h3 : objLookup f3 "content" = some v) :
    extract_choices_content (.obj fields) = .ok v := by
  have hany := objLookup_some_any fields "choices" _ h1
  simp [extract_choices_content, pyContainsChoices, pyGetStr, pyGetZero, JValue.truthy,
    hany, h1, h2, h3]

/-- C4 amended: the completion client raises the typed translation error on
a missing API key, a timeout, a transport error, a non-200 status, a JSON
decode failure, and a missing or falsy (in particular empty) choices list;
and it returns the first choice's message content when the payload is
well-formed.  But on other malformed payloads (for example a first choice
without a `message` key) it raises an untyped exception such as `KeyError`
instead of the typed error. -/
theorem C4_amended_client_contract (k : String) :
    (∀ o, call_mimo_api none o =
      .error (.translationError "MIMO_API_KEY environment variable is not set")) ∧
    (call_mimo_api (some k) .timeout = .error (.translationError "API request timed out")) ∧
    (∀ m, call_mimo_api (some k) (.requestError m) =
      .error (.translationError ("API request failed: " ++ m))) ∧
    (∀ st text j, st ≠ 200 → call_mimo_api (some k) (.response st text j) =
      .error (.translationError ("API returned status " ++ toString st ++ ": " ++ text))) ∧
    (∀ text m, call_mimo_api (some k) (.response 200 text (.error m)) =
      .error (.translationError "Invalid JSON response from API")) ∧
    (∀ text fields, objLookup fields "choices" = none →
      call_mimo_api (some k) (.response 200 text (.ok (.obj fields))) =
      .error (.translationError "Invalid API response: no choices found")) ∧
    (∀ text fields c, objLookup fields "choices" = some c → c.truthy = false →
      call_mimo_api (some k) (.response 200 text (.ok (.obj fields))) =
      .error (.translationError "Invalid API response: no choices found")) ∧
    (∀ text fields f2 f3 rest v,
      objLookup fields "choices" = some (.arr (.obj f2 :: rest)) →
      objLookup f2 "message" = some (.obj f3) →
      objLookup f3 "content" = some v →
      call_mimo_api (some k) (.response 200 text (.ok (.obj fields))) = .ok v) := by
  refine ⟨fun o => rfl, rfl, fun m => rfl, ?_, fun text m => rfl, ?_, ?_, ?_⟩
  · intro st text j hst
    simp only [call_mimo_api, if_pos hst]
  · intro text fields hnone
    have h200 : ¬ (200 ≠ 200) := by decide
    simp only [call_mimo_api, if_neg h200]
    exact extract_missing_choices fields hnone
  · intro text fields c hsome hf
    have h200 : ¬ (200 ≠ 200) := by decide
    simp only [call_mimo_api, if_neg h200]
    exact extract_falsy_choices fields c hsome hf
  · intro text fields f2 f3 rest v h1 h2 h3
    have h200 : ¬ (200 ≠ 200) := by decide
    simp only [call_mimo_api, if_neg h200]
    exact extract_wellformed fields f2 f3 rest v h1 h2 h3

/-- C4 counterexample: a 200 response with the well-formed-looking but
incomplete payload `{"choices": [{}]}` raises `KeyError`, an untyped
exception, not the typed translation error the claim demands for every
malformed payload. -/
theorem C4_counterexample :
    call_mimo_api (some "key")
      (.response 200 "" (.ok (.obj [("choices", .arr [.obj []])]))) =
      .error (.keyError "message") ∧
    ∀ m, (PyError.keyError "message") ≠ .translationError m :=
  ⟨rfl, fun _ h => PyError.noConfusion h⟩

/-- Witness for the amended C4: a 404 response raises the typed error with
the status text. -/
theorem C4_amended_witness :
    call_mimo_api (some "k") (.response 404 "oops" (.error "nope")) =
      .error (.translationError ("API returned status " ++ toString 404 ++ ": " ++ "oops")) :=
  (C4_amended_client_contract "k").2.2.2.1 404 "oops" (.error "nope") (by decide)

theorem foundMarker_le (resp : List Char) (ms : List String) (p l : Nat)
    (h : foundMarker resp ms = some (p, l)) : p + l ≤ resp.length := by
  induction ms with
  | nil => cases h
  | cons m ms ih =>
    unfold foundMarker at h
    cases hf : findSubstr m.data resp with
    | some q =>
      rw [hf] at h
      injection h with h2
      cases h2
      exact findSubstr_bound _ _ _ hf
    | none =>
      rw [hf] at h
      exact ih h

/-- The start of the next marker in position order after a marker at `p`:
the smaller of the other two marker positions beyond `p`, or the end of
the text. -/
def nextBoundary (len p q r : Nat) : Nat :=
  min (if p < q then q else len) (if p < r then r else len)

/-- C7 amended: with all three markers present at pairwise distinct
positions, each field receives the content between the end of its
section's marker and the start of the next marker in position order (end
of text for the last), stripped of surrounding whitespace and of one
leading colon — except that when the translation section's content is
empty, the whole stripped text is assigned to the translation field
instead.  With no markers present, the whole stripped text becomes the
translation and the other fields stay empty. -/
theorem C7_amended_parser_assigns_sections (response : String) :
    (∀ p1 l1 p2 l2 p3 l3,
      foundMarker response.data translationMarkers = some (p1, l1) →
      foundMarker response.data contextMarkers = some (p2, l2) →
      foundMarker response.data toneMarkers = some (p3, l3) →
      p1 ≠ p2 → p1 ≠ p3 → p2 ≠ p3 →
      parse_translation_response response =
        (if sectionContent response.data (p1 + l1)
            (nextBoundary response.data.length p1 p2 p3) = "" then
          (⟨pyStrip response,
            sectionContent response.data (p2 + l2) (nextBoundary response.data.length p2 p1 p3),
            sectionContent response.data (p3 + l3)
              (nextBoundary response.data.length p3 p1 p2)⟩ : TransParsed)
        else
          ⟨sectionContent response.data (p1 + l1) (nextBoundary response.data.length p1 p2 p3),
            sectionContent response.data (p2 + l2) (nextBoundary response.data.length p2 p1 p3),
            sectionContent response.data (p3 + l3)
              (nextBoundary response.data.length p3 p1 p2)⟩)) ∧
    (foundMarker response.data translationMarkers = none →
      foundMarker response.data contextMarkers = none →
      foundMarker response.data toneMarkers = none →
      parse_translation_response response = ⟨pyStrip response, "", ""⟩) := by
  constructor
  · intro p1 l1 p2 l2 p3 l3 h1 h2 h3 d12 d13 d23
    have b1 := foundMarker_le _ _ _ _ h1
    have b2 := foundMarker_le _ _ _ _ h2
    have b3 := foundMarker_le _ _ _ _ h3
    simp only [parse_translation_response, buildPositions, h1, h2, h3,
      List.cons_append, List.nil_append]
    rcases Nat.lt_trichotomy p1 p2 with h12 | h12 | h12
    · rcases Nat.lt_trichotomy p2 p3 with h23 | h23 | h23
      · -- p1 < p2 < p3, order: translation, context, tone
        have n1 : nextBoundary response.data.length p1 p2 p3 = p2 := by
          unfold nextBoundary
          rw [if_pos h12, if_pos (lt_trans h12 h23)]
          omega
        have n2 : nextBoundary response.data.length p2 p1 p3 = p3 := by
          unfold nextBoundary
          rw [if_neg (by omega), if_pos h23]
          omega
        have n3 : nextBoundary response.data.length p3 p1 p2 = response.data.length := by
          unfold nextBoundary
          rw [if_neg (by omega), if_neg (by omega)]
          omega
        rw [n1, n2, n3]
        have s1 : isortBy (fun a b => decide (a.1 ≤ b.1))
            [(p1, SectionName.translation, l1), (p2, SectionName.context_explanation, l2),
             (p3, SectionName.tone_notes, l3)] =
            [(p1, SectionName.translation, l1), (p2, SectionName.context_explanation, l2),
             (p3, SectionName.tone_notes, l3)] := by
          simp [isortBy, insBy, Nat.le_of_lt h12, Nat.le_of_lt h23]
        rw [s1]
        simp only [extractLoop, setField]
      · exact absurd h23 d23
      · rcases Nat.lt_trichotomy p1 p3 with h13 | h13 | h13
        · -- p1 < p3 < p2, order: translation, tone, context
          have n1 : nextBoundary response.data.length p1 p2 p3 = p3 := by
            unfold nextBoundary
            rw [if_pos h12, if_pos h13]
            omega
          have n2 : nextBoundary response.data.length p2 p1 p3 = response.data.length := by
            unfold nextBoundary
            rw [if_neg (by omega), if_neg (by omega)]
            omega
          have n3 : nextBoundary response.data.length p3 p1 p2 = p2 := by
            unfold nextBoundary
            rw [if_neg (by omega), if_pos (by omega)]
            omega
          rw [n1, n2, n3]
          have s1 : isortBy (fun a b => decide (a.1 ≤ b.1))
              [(p1, SectionName.translation, l1), (p2, SectionName.context_explanation, l2),
               (p3, SectionName.tone_notes, l3)] =
              [(p1, SectionName.translation, l1), (p3, SectionName.tone_notes, l3),
               (p2, SectionName.context_explanation, l2)] := by
            have hf : ¬ (p2 ≤ p3) := by omega
            simp [isortBy, insBy, hf, Nat.le_of_lt h13]
          rw [s1]
          simp only [extractLoop, setField]
        · exact absurd h13 d13
        · -- p3 < p1 < p2, order: tone, translation, context
          have n1 : nextBoundary response.data.length p1 p2 p3 = p2 := by
            unfold nextBoundary
            rw [if_pos h12, if_neg (by omega)]
            omega
          have n2 : nextBoundary response.data.length p2 p1 p3 = response.data.length := by
            unfold nextBoundary
            rw [if_neg (by omega), if_neg (by omega)]
            omega
          have n3 : nextBoundary response.data.length p3 p1 p2 = p1 := by
            unfold nextBoundary
            rw [if_pos h13, if_pos (by omega)]
            omega
          rw [n1, n2, n3]
          have s1 : isortBy (fun a b => decide (a.1 ≤ b.1))
              [(p1, SectionName.translation, l1), (p2, SectionName.context_explanation, l2),
               (p3, SectionName.tone_notes, l3)] =
              [(p3, SectionName.tone_notes, l3), (p1, SectionName.translation, l1),
               (p2, SectionName.context_explanation, l2)] := by
            have hf1 : ¬ (p2 ≤ p3) := by omega
            have hf2 : ¬ (p1 ≤ p3) := by omega
            simp [isortBy, insBy, hf1, hf2, Nat.le_of_lt h12]
          rw [s1]
          simp only [extractLoop, setField]
    · exact absurd h12 d12
    · rcases Nat.lt_trichotomy p1 p3 with h13 | h13 | h13
      · -- p2 < p1 < p3, order: context, translation, tone
        have n1 : nextBoundary response.data.length p1 p2 p3 = p3 := by
          unfold nextBoundary
          rw [if_neg (by omega), if_pos h13]
          omega
        have n2 : nextBoundary response.data.length p2 p1 p3 = p1 := by
          unfold nextBoundary
          rw [if_pos h12, if_pos (by omega)]
          omega
        have n3 : nextBoundary response.data.length p3 p1 p2 = response.data.length := by
          unfold nextBoundary
          rw [if_neg (by omega), if_neg (by omega)]
          omega
        rw [n1, n2, n3]
        have s1 : isortBy (fun a b => decide (a.1 ≤ b.1))
            [(p1, SectionName.translation, l1), (p2, SectionName.context_explanation, l2),
             (p3, SectionName.tone_notes, l3)] =
            [(p2, SectionName.context_explanation, l2), (p1, SectionName.translation, l1),
             (p3, SectionName.tone_notes, l3)] := by
          have hf : ¬ (p1 ≤ p2) := by omega
          have hle23 : p2 ≤ p3 := by omega
          simp [isortBy, insBy, hf, hle23, Nat.le_of_lt h13]
        rw [s1]
        simp only [extractLoop, setField]
      · exact absurd h13 d13
      · rcases Nat.lt_trichotomy p2 p3 with h23 | h23 | h23
        · -- p2 < p3 < p1, order: context, tone, translation
          have n1 : nextBoundary response.data.length p1 p2 p3 = response.data.length := by
            unfold nextBoundary
            rw [if_neg (by omega), if_neg (by omega)]
            omega
          have n2 : nextBoundary response.data.length p2 p1 p3 = p3 := by
            unfold nextBoundary
            rw [if_pos h12, if_pos h23]
            omega
          have n3 : nextBoundary response.data.length p3 p1 p2 = p1 := by
            unfold nextBoundary
            rw [if_pos h13, if_neg (by omega)]
            omega
          rw [n1, n2, n3]
          have s1 : isortBy (fun a b => decide (a.1 ≤ b.1))
              [(p1, SectionName.translation, l1), (p2, SectionName.context_explanation, l2),
               (p3, SectionName.tone_notes, l3)] =
              [(p2, SectionName.context_explanation, l2), (p3, SectionName.tone_notes, l3),
               (p1, SectionName.translation, l1)] := by
            have hf1 : ¬ (p1 ≤ p2) := by omega
            have hf2 : ¬ (p1 ≤ p3) := by omega
            simp [isortBy, insBy, hf1, hf2, Nat.le_of_lt h23]
          rw [s1]
          simp only [extractLoop, setField]
        · exact absurd h23 d23
        · -- p3 < p2 < p1, order: tone, context, translation
          have n1 : nextBoundary response.data.length p1 p2 p3 = response.data.length := by
            unfold nextBoundary
            rw [if_neg (by omega), if_neg (by omega)]
            omega
          have n2 : nextBoundary response.data.length p2 p1 p3 = p1 := by
            unfold nextBoundary
            rw [if_pos h12, if_neg (by omega)]
            omega
          have n3 : nextBoundary response.data.length p3 p1 p2 = p2 := by
            unfold nextBoundary
            rw [if_pos h13, if_pos h23]
            omega
          rw [n1, n2, n3]
          have s1 : isortBy (fun a b => decide (a.1 ≤ b.1))
              [(p1, SectionName.translation, l1), (p2, SectionName.context_explanation, l2),
               (p3, SectionName.tone_notes, l3)] =
              [(p3, SectionName.tone_notes, l3), (p2, SectionName.context_explanation, l2),
               (p1, SectionName.translation, l1)] := by
            have hf1 : ¬ (p2 ≤ p3) := by omega
            have hf2 : ¬ (p1 ≤ p3) := by omega
            have hf3 : ¬ (p1 ≤ p2) := by omega
            simp [isortBy, insBy, hf1, hf2, hf3]
          rw [s1]
          simp only [extractLoop, setField]
  · intro h1 h2 h3
    simp only [parse_translation_response, buildPositions, h1, h2, h3,
      List.nil_append, List.append_nil]
    simp [isortBy, extractLoop]

def c7bad : String := "[Translation][Context]x[Tone]y"

/-- C7 counterexample: all three markers are present and the content
between the translation marker and the next marker is empty, yet the
translation field receives the entire text, not that (empty) content —
the whole-text fallback fires even when markers were found. -/
theorem C7_counterexample :
    foundMarker c7bad.data translationMarkers = some (0, 13) ∧
    foundMarker c7bad.data contextMarkers = some (13, 9) ∧
    foundMarker c7bad.data toneMarkers = some (23, 6) ∧
    sectionContent c7bad.data 13 13 = "" ∧
    parse_translation_response c7bad = ⟨c7bad, "x", "y"⟩ ∧
    c7bad ≠ "" := by decide

def c7resp : String := "[Translation] hi\n[Context] none\n[Tone] calm"

/-- Witness for the amended C7 on a three-marker response. -/
theorem C7_amended_witness :
    parse_translation_response c7resp = ⟨"hi", "none", "calm"⟩ := by
  have h := (C7_amended_parser_assigns_sections c7resp).1 0 13 17 9 32 6
    (by decide) (by decide) (by decide) (by decide) (by decide) (by decide)
  exact h.trans (by decide)
